import Mathlib

/-!
Verification of the live-preview parameter-editing protocol and the
camera-frame acquisition layer of the Vision-Classroom teaching application.

The development shallowly embeds the state-manipulating parts of
`src/main_app.py`, `src/widgets/base_param.py`,
`src/widgets/gauss_blur_param.py`, `src/widgets/threshold_param.py` and
`src/camera/standard_camera.py` / `src/camera/oakd_lite_camera.py` /
`src/camera/depth_ai_stereo.py` as pure Lean functions over explicit
state records.

Modelling conventions:
* An `Image` is an in-memory pixel grid (the spec's non-goal is the pixel
  math of each filter, so the Transform Operator itself — `cv2.GaussianBlur`
  etc. — is a parameter `blur : Image → GaussParams → Image` of the model:
  the protocol under verification decides only which image and which
  parameter values are fed to it and where the result goes).
* numpy's `.copy()` is the identity on the mathematical pixel content, so
  snapshots are modelled by plain values (value semantics already gives
  "a copy").
* Qt rendering (`QImage`/`QPixmap` conversion and `setPixmap`) is modelled
  by a single `displayed : Option Image` field: the pixel content currently
  pushed to the Display Surface.
* The wall-clock recompute throttle (`time.time() - last_update_time >
  0.066`) is modelled by a boolean oracle per control-change event: `true`
  when the event falls outside the throttle window.
-/

namespace VisionClassroom

/-- Pixel grid: grayscale or (channel-flattened) colour rows. The unit of
exchange between all components. -/
abbrev Image := List (List Nat)

/-- OpenCV border-mode constants used by the Gaussian panel's
`border_map` (`src/widgets/gauss_blur_param.py` lines 183-189):
`BORDER_CONSTANT = 0`, `BORDER_REPLICATE = 1`, `BORDER_WRAP = 3`,
`BORDER_REFLECT101 = BORDER_DEFAULT = 4`. -/
def borderMap (idx : Nat) : Nat :=
  match idx with
  | 0 => 4   -- cv2.BORDER_DEFAULT
  | 1 => 0   -- cv2.BORDER_CONSTANT
  | 2 => 1   -- cv2.BORDER_REPLICATE
  | 3 => 4   -- cv2.BORDER_REFLECT101
  | 4 => 3   -- cv2.BORDER_WRAP
  | _ => 4   -- dict .get default: cv2.BORDER_DEFAULT

/-- Parameter Set of the Gaussian blur panel
(`gauss_blur_param.py` lines 15-20 and 192-197). Sigmas are stored as the
integer slider value; the code recovers the float as `value / 10.0`, an
exact rescaling, so the tenths value carries the same information. -/
structure GaussParams where
  kernel_size : Nat
  sigma_x_tenths : Nat
  sigma_y_tenths : Nat
  border_type : Nat
deriving DecidableEq, Repr

/-- Application Shell state: the fields of `CVTeachingApp` (`main_app.py`
lines 42-54) that the panel protocol and file I/O read or write, plus the
`displayed` field modelling the pixel content shown on `image_label`. -/
structure AppState where
  image : Option Image
  current_output : Option Image
  current_output_path : String
  previous_output : Option Image
  camera_running : Bool
  displayed : Option Image
  /-- `self.parameter_windows`: dict keyed by `window.windowTitle()`,
  value modelled by the window's numeric identity. -/
  parameter_windows : List (String × Nat)
  /-- All parameter windows created and not yet closed, with their
  identity (model of the live Qt window objects). -/
  openWindows : List (Nat × String)
  /-- Fresh identity supply for newly created windows. -/
  nextId : Nat
deriving DecidableEq, Repr

/-- `CVTeachingApp.display_image` (`main_app.py` lines 375-395): stores the
previous output when one exists, renders `img` on the Display Surface, and
records `img` as the new `current_output` (commit semantics). -/
def display_image (s : AppState) (img : Image) : AppState :=
  let s :=
    if s.current_output.isSome then { s with previous_output := s.current_output } else s
  { s with displayed := some img, current_output := some img }

/-- `CVTeachingApp.temp_display_image` (`main_app.py` lines 113-130): the
preview display path. `hasattr(self, 'temp_display')` is always true because
`__init__` (line 53) sets `self.temp_display = None`, so the guarded
`self.temp_display = img.copy()` branch is dead; the method only converts
and renders `img`. No assignment to `current_output` occurs. -/
def temp_display_image (s : AppState) (img : Image) : AppState :=
  { s with displayed := some img }

/-- Qt's `QSlider.setValue` clamps the requested raw value into the
slider's `[lo, hi]` range. -/
def qtSetValue (lo hi v : Nat) : Nat := min hi (max lo v)

/-- Python dict assignment `d[k] = v`. -/
def dictInsert (k : String) (v : Nat) (d : List (String × Nat)) : List (String × Nat) :=
  (k, v) :: d.filter (fun e => e.1 ≠ k)

/-- `CVTeachingApp.unregister_parameter_window` (`main_app.py` lines
107-111): `if key in dict: del dict[key]`. -/
def dictErase (k : String) (d : List (String × Nat)) : List (String × Nat) :=
  d.filter (fun e => e.1 ≠ k)

/-- State of one open `GaussianBlurParameterWindow`
(`gauss_blur_param.py` lines 10-28 over `base_param.py` lines 8-26):
the revert-target snapshot, the default and current Parameter Sets, the
live-preview flag, the raw positions of the four controls, and whether the
window is still open. -/
structure GaussPanel where
  original_image : Image
  default_params : GaussParams
  current_params : GaussParams
  live_preview : Bool
  kernel_raw : Nat
  sigma_x_raw : Nat
  sigma_y_raw : Nat
  border_idx : Nat
  isOpen : Bool
  /-- Identity of the underlying Qt window object. -/
  winId : Nat
deriving DecidableEq, Repr

/-- The panel's default Parameter Set (`gauss_blur_param.py` lines 15-20):
kernel 5, sigmas 1.0 (slider tenths 10), border `cv2.BORDER_DEFAULT`. -/
def gaussDefaults : GaussParams :=
  { kernel_size := 5, sigma_x_tenths := 10, sigma_y_tenths := 10, border_type := 4 }

/-- `BaseParameterWindow.__init__` (`base_param.py` lines 8-26) followed by
the Gaussian panel's `__init__`: snapshots `parent.current_output.copy()` as
the revert target, initialises defaults, current parameters and controls
(`setup_ui`, lines 30-70: kernel slider range 1-31 at 5, sigma sliders
1-100 at 10, border combo at 0, live preview checked); the constructor
also registers the window with the parent under its window title
(`base_param.py` line 26). When `parent.current_output` is `None` the
constructor raises (`None.copy()`), modelled as `none`. -/
def openGaussPanel (s : AppState) : Option (AppState × GaussPanel) :=
  match s.current_output with
  | none => none
  | some co =>
      some ({ s with
                parameter_windows :=
                  dictInsert "Gaussian Blur" s.nextId s.parameter_windows,
                openWindows :=
                  (s.nextId, "GaussianBlurParameterWindow") :: s.openWindows,
                nextId := s.nextId + 1 },
            { original_image := co
              default_params := gaussDefaults
              current_params := gaussDefaults
              live_preview := true
              kernel_raw := 5
              sigma_x_raw := 10
              sigma_y_raw := 10
              border_idx := 0
              isOpen := true
              winId := s.nextId })

/-- The Parameter Set read back from the controls by `apply_changes`
(`gauss_blur_param.py` lines 174-190): the kernel slider is `odd_only`, so
its value is coerced with `max(1, kernel_size | 1)`; sigmas are the slider
values over ten; the border combo index goes through `border_map`. -/
def gaussParamsFromControls (p : GaussPanel) : GaussParams :=
  { kernel_size := max 1 (p.kernel_raw ||| 1)
    sigma_x_tenths := p.sigma_x_raw
    sigma_y_tenths := p.sigma_y_raw
    border_type := borderMap p.border_idx }

/-- `GaussianBlurParameterWindow.apply_changes` (`gauss_blur_param.py`
lines 170-211): returns unchanged when the parent has no base image; else
reads the controls, records them as `current_params`, applies the operator
to `self.parent.image`, and routes the result through the preview display
path (`temp_display_image`) or the commit path (`display_image`). -/
def apply_changes (blur : Image → GaussParams → Image) (s : AppState)
    (p : GaussPanel) (preview_only : Bool) : AppState × GaussPanel :=
  match s.image with
  | none => (s, p)
  | some img =>
      let params := gaussParamsFromControls p
      let p := { p with current_params := params }
      let blurred := blur img params
      if preview_only then (temp_display_image s blurred, p)
      else (display_image s blurred, p)

/-- The odd-only coercion inside `on_parameter_changed`
(`gauss_blur_param.py` lines 156-161): an even kernel-slider value is
replaced via `setValue(max(1, value - 1))` (the replacement is within the
slider range, so the clamp is the identity there). -/
def gaussKernelOddCoerce (v : Nat) : Nat :=
  if v % 2 == 0 then qtSetValue 1 31 (max 1 (v - 1)) else v

/-- One control-change event on the Gaussian panel, with the raw value
pushed to the control and the state of the throttle window when the
`valueChanged`/`currentIndexChanged` signal fires (`true` = more than 66 ms
since the last recompute). -/
inductive GaussEvent where
  | setKernel (raw : Nat) (throttleOpen : Bool)
  | setSigmaX (raw : Nat) (throttleOpen : Bool)
  | setSigmaY (raw : Nat) (throttleOpen : Bool)
  | setBorder (idx : Nat) (throttleOpen : Bool)
  | setLivePreview (b : Bool)
deriving DecidableEq, Repr

/-- Tail of `on_parameter_changed` (`gauss_blur_param.py` lines 164-168):
when live preview is on, the parent has an image and the event falls
outside the throttle window, a preview recompute fires; otherwise only the
value label was updated. -/
def gaussMaybePreview (blur : Image → GaussParams → Image) (s : AppState)
    (p : GaussPanel) (throttleOpen : Bool) : AppState × GaussPanel :=
  if p.live_preview && s.image.isSome && throttleOpen then
    apply_changes blur s p true
  else (s, p)

/-- One step of the panel's event loop: the control takes its (clamped) new
value, `on_parameter_changed` (`gauss_blur_param.py` lines 149-168)
normalises odd-only sliders and possibly triggers a throttled preview
recompute; `on_preview_changed` (lines 146-147) toggles the flag. -/
def gaussStep (blur : Image → GaussParams → Image)
    (sp : AppState × GaussPanel) (e : GaussEvent) : AppState × GaussPanel :=
  let s := sp.1
  let p := sp.2
  match e with
  | .setKernel raw t =>
      let p := { p with kernel_raw := gaussKernelOddCoerce (qtSetValue 1 31 raw) }
      gaussMaybePreview blur s p t
  | .setSigmaX raw t =>
      let p := { p with sigma_x_raw := qtSetValue 1 100 raw }
      gaussMaybePreview blur s p t
  | .setSigmaY raw t =>
      let p := { p with sigma_y_raw := qtSetValue 1 100 raw }
      gaussMaybePreview blur s p t
  | .setBorder idx t =>
      let p := { p with border_idx := min 4 idx }
      gaussMaybePreview blur s p t
  | .setLivePreview b => (s, { p with live_preview := b })

/-- A whole editing session: the events folded over the opened panel. -/
def gaussRun (blur : Image → GaussParams → Image)
    (sp : AppState × GaussPanel) : List GaussEvent → AppState × GaussPanel
  | [] => sp
  | e :: es => gaussRun blur (gaussStep blur sp e) es

/-- `GaussianBlurParameterWindow`'s registry key, the `windowTitle()` set by
its constructor (`gauss_blur_param.py` line 12). -/
def gaussTitle : String := "Gaussian Blur"

/-- `closeEvent` of the panel (`base_param.py` lines 81-84): deregisters
from the parent's registry under the window-title key; the window object
itself is destroyed (`Qt.WA_DeleteOnClose`). -/
def closeGaussPanel (s : AppState) (p : GaussPanel) : AppState × GaussPanel :=
  ({ s with parameter_windows := dictErase gaussTitle s.parameter_windows,
            openWindows := s.openWindows.filter (fun w => w.1 ≠ p.winId) },
   { p with isOpen := false })

/-- `on_ok_clicked` (`gauss_blur_param.py` lines 120-123): commit —
`apply_changes()` with the default `preview_only=False`, then `close()`. -/
def on_ok_clicked (blur : Image → GaussParams → Image) (s : AppState)
    (p : GaussPanel) : AppState × GaussPanel :=
  let sp := apply_changes blur s p false
  closeGaussPanel sp.1 sp.2

/-- The four throttle-oracle values for the `valueChanged` /
`currentIndexChanged` signals fired by the programmatic `setValue` /
`setCurrentIndex` calls inside `reset_parameters`. -/
structure ResetSignals where
  k : Bool
  sx : Bool
  sy : Bool
  b : Bool
deriving DecidableEq, Repr

/-- `reset_parameters` (`gauss_blur_param.py` lines 136-144): pushes the
default values back into the four controls (each `setValue` re-enters
`on_parameter_changed`, whose throttled preview is given by the oracle),
then sets `current_params` to a copy of the defaults and runs one explicit
preview recompute `apply_changes(preview_only=True)`. -/
def reset_parameters (blur : Image → GaussParams → Image) (s : AppState)
    (p : GaussPanel) (sig : ResetSignals) : AppState × GaussPanel :=
  let sp := gaussRun blur (s, p)
    [ .setKernel p.default_params.kernel_size sig.k,
      .setSigmaX p.default_params.sigma_x_tenths sig.sx,
      .setSigmaY p.default_params.sigma_y_tenths sig.sy,
      .setBorder 0 sig.b ]
  let p := { sp.2 with current_params := p.default_params }
  apply_changes blur sp.1 p true

/-- `on_revert_clicked` (`gauss_blur_param.py` lines 125-129): when the
parent exists and the revert target is set (always the case for an open
panel), `parent.display_image(self.original_image)` followed by
`reset_parameters()`; the window is not closed. -/
def on_revert_clicked (blur : Image → GaussParams → Image) (s : AppState)
    (p : GaussPanel) (sig : ResetSignals) : AppState × GaussPanel :=
  let s := display_image s p.original_image
  reset_parameters blur s p sig

/-! ## The Application Shell's panel registry (`main_app.py`) -/

/-- The parameter-panel classes present under `src/widgets/`
(each one a subclass of `BaseParameterWindow`). -/
inductive PanelClass where
  | brightnessContrast
  | histogramEnhancement
  | canny
  | laplacian
  | hsv
  | gaussianBlur
  | unsharpMask
  | laplacianEnhancement
  | denoise
  | threshold
  | morphology
deriving DecidableEq, Repr

/-- `window_class.__name__` for each panel class. -/
def className : PanelClass → String
  | .brightnessContrast => "BrightnessContrastWindow"
  | .histogramEnhancement => "HistogramEnhancementWindow"
  | .canny => "CannyParameterWindow"
  | .laplacian => "LaplacianParameterWindow"
  | .hsv => "HSVParameterWindow"
  | .gaussianBlur => "GaussianBlurParameterWindow"
  | .unsharpMask => "UnsharpMaskParameterWindow"
  | .laplacianEnhancement => "LaplacianEnhancementWindow"
  | .denoise => "DenoiseParameterWindow"
  | .threshold => "ThresholdParameterWindow"
  | .morphology => "MorphologyParameterWindow"

/-- Python `str.replace` on character lists: replaces the leftmost
non-overlapping occurrences of `pat` by `rep`, with explicit fuel for
structural recursion (the fuel is chosen large enough below). -/
def replaceChars : Nat → List Char → List Char → List Char → List Char
  | 0, s, _, _ => s
  | _ + 1, [], _, _ => []
  | fuel + 1, c :: rest, pat, rep =>
      if pat.isPrefixOf (c :: rest) then
        rep ++ replaceChars fuel ((c :: rest).drop pat.length) pat rep
      else
        c :: replaceChars fuel rest pat rep

/-- Python `str.replace(pat, rep)`. -/
def pyReplace (s pat rep : String) : String :=
  ⟨replaceChars (s.data.length + 1) s.data pat.data rep.data⟩

/-- The key `show_parameter_window` looks up (`main_app.py` line 135):
`window_class.__name__.replace("ParameterWindow", "").replace("Window", "")`. -/
def derivedTitle (c : PanelClass) : String :=
  pyReplace (pyReplace (className c) "ParameterWindow" "") "Window" ""

/-- The key under which a successfully constructed window registers
itself: its `windowTitle()`, the title string each subclass passes to
`BaseParameterWindow.__init__`. `none` when the constructor raises before
registering: `DenoiseParameterWindow` calls
`super().__init__("Denoising Parameters", parent)` with the arguments
swapped (`denoise_param.py` line 12), so `QWidget.__init__` receives a
string parent and raises `TypeError`. -/
def registeredKeyOpt : PanelClass → Option String
  | .brightnessContrast => some "Brightness, Contrast & Gamma"
  | .histogramEnhancement => some "Histogram Enhancement"
  | .canny => some "Canny Edge Detection"
  | .laplacian => some "Laplacian Edge Enhancement"
  | .hsv => some "HSV Parameters"
  | .gaussianBlur => some "Gaussian Blur"
  | .unsharpMask => some "Unsharp Mask"
  | .laplacianEnhancement => some "Laplacian Edge Enhancement"
  | .denoise => none
  | .threshold => some "Thresholding"
  | .morphology => some "Morphological Operations"

/-- Outcome of a `show_parameter_window` request. -/
inductive ShowResult where
  | raised
  | warned
  | opened
  | constructionError
deriving DecidableEq, Repr

/-- `CVTeachingApp.show_parameter_window` (`main_app.py` lines 132-150):
looks the class-derived title up in the registry and raises the existing
window on a hit; else warns and returns when there is neither an image nor
a running camera; else constructs the window (the constructor snapshots
`current_output.copy()` — an `AttributeError` when `current_output` is
`None` — and registers under `windowTitle()`, `base_param.py` lines 17-26)
and registers it a second time (line 150). -/
def show_parameter_window (s : AppState) (c : PanelClass) :
    AppState × ShowResult :=
  let title := derivedTitle c
  if (s.parameter_windows.lookup title).isSome then (s, .raised)
  else if s.image.isNone && !s.camera_running then (s, .warned)
  else
    match s.current_output, registeredKeyOpt c with
    | none, _ => (s, .constructionError)
    | some _, none => (s, .constructionError)
    | some _, some wt =>
        let id := s.nextId
        let d := dictInsert wt id (dictInsert wt id s.parameter_windows)
        ({ s with parameter_windows := d,
                  openWindows := (id, className c) :: s.openWindows,
                  nextId := id + 1 }, .opened)

/-! ## File loading (`main_app.py` lines 364-373) -/

/-- `CVTeachingApp.open_image`: the file dialog yields a path or is
cancelled. `cv2.imread` returns `None` for a missing or undecodable file
(modelled by the decoder function `fs`); the code then assigns
`self.image = None` and crashes with an uncaught `AttributeError` at
`self.image.copy()` — the returned flag records whether an exception
escaped. On success, base image, current output and output path are all
replaced and the image is displayed (commit path). -/
def open_image (fs : String → Option Image) (s : AppState)
    (dialogPath : Option String) : AppState × Bool :=
  match dialogPath with
  | none => (s, false)
  | some path =>
      match fs path with
      | none => ({ s with image := none }, true)
      | some img =>
          let s := { s with image := some img, current_output := some img,
                            current_output_path := path }
          (display_image s img, false)

/-! ## Odd-only control normalization of the threshold panel
(`threshold_param.py` lines 75, 200-206) -/

/-- The odd-only coercion inside `ThresholdParameterWindow.
on_parameter_changed` for the block-size slider (range 3-51): an even
value is replaced via `setValue(max(3, value - 1))`. -/
def blockSizeOddCoerce (v : Nat) : Nat :=
  if v % 2 == 0 then qtSetValue 3 51 (max 3 (v - 1)) else v

/-- Displayed/normalized value after pushing a raw value onto the
Gaussian kernel-size slider (`setValue` clamps to 1-31, then
`on_parameter_changed` applies the odd coercion). -/
def gaussKernelAfterSet (raw : Nat) : Nat :=
  gaussKernelOddCoerce (qtSetValue 1 31 raw)

/-- Displayed/normalized value after pushing a raw value onto the
adaptive-threshold block-size slider (`setValue` clamps to 3-51, then
`on_parameter_changed` applies the odd coercion). -/
def blockSizeAfterSet (raw : Nat) : Nat :=
  blockSizeOddCoerce (qtSetValue 3 51 raw)

/-- Distance between two naturals. -/
def ndist (a b : Nat) : Nat := if a ≤ b then b - a else a - b

/-! ## Frame sources (`src/camera/`) -/

/-- State of a `StandardCameraWidget` (`standard_camera.py` lines 65-179)
together with the operating-system view of its capture handles.
`opened` lists the device handles that have been opened by
`cv2.VideoCapture(...)` and not released by an explicit `release()` call;
`capture` is the handle the widget's `self.capture` currently references
(present even when the device failed to open, since the `VideoCapture`
object is constructed either way). -/
structure StdCam where
  nextHandle : Nat
  opened : List Nat
  capture : Option Nat
  timer_on : Bool
  camera_running : Bool
deriving DecidableEq, Repr

/-- The widget's state right after `__init__` (lines 67-90):
`self.capture = None`, timer created but not started. -/
def initStdCam : StdCam :=
  { nextHandle := 0, opened := [], capture := none,
    timer_on := false, camera_running := false }

/-- `StandardCameraWidget.start_stream` (lines 133-159): constructs a new
`cv2.VideoCapture` and overwrites `self.capture` with it — no check of
`camera_running` and no release of any previously held capture. When the
device opens (`devOpens`), the resolution is set, the timer started,
`camera_running` set, and `True` returned; otherwise `False` is returned
(the failed capture object stays in `self.capture`, holding no open
device). The `except` branch also returns `False`. -/
def start_stream (devOpens : Bool) (s : StdCam) : StdCam × Bool :=
  let h := s.nextHandle
  let s := { s with nextHandle := h + 1,
                    opened := if devOpens then h :: s.opened else s.opened,
                    capture := some h }
  if devOpens then
    ({ s with timer_on := true, camera_running := true }, true)
  else (s, false)

/-- `StandardCameraWidget.stop_stream` (lines 161-168): stops the timer,
releases the capture only when one is referenced and open
(`if self.capture and self.capture.isOpened()`), then clears the
reference and the running flag. Total — no exception on any state. -/
def stop_stream (s : StdCam) : StdCam :=
  let s := { s with timer_on := false }
  let s :=
    match s.capture with
    | some h =>
        if s.opened.contains h then { s with opened := s.opened.erase h } else s
    | none => s
  { s with capture := none, camera_running := false }

/-- State of a DepthAI-based frame-source widget
(`OakDLiteCameraWidget` / `StereoCameraWidget`, `standard_camera.py`
lines 182-230) with its wrapped inner camera object. -/
structure DaiCamWidget where
  deviceOpen : Bool
  running : Bool
  timer_on : Bool
  camera_running : Bool
deriving DecidableEq, Repr

/-- Inner `OakDLiteCamera.start_stream` (`oakd_lite_camera.py` lines
35-49): the whole body — pipeline setup, `dai.Device` open, queue
creation — sits in `try: ... except Exception:`; on success `running`
becomes `True`, on any failure the exception is swallowed and `running`
set `False`. It never raises and returns nothing. -/
def oakdInnerStart (devOk : Bool) (w : DaiCamWidget) : DaiCamWidget :=
  if devOk then { w with deviceOpen := true, running := true }
  else { w with running := false }

/-- `OakDLiteCameraWidget.start_stream` (`standard_camera.py` lines
191-195): calls the inner start (which cannot raise), starts the timer,
sets `camera_running = True` and returns `True` unconditionally. -/
def oakdWidgetStart (devOk : Bool) (w : DaiCamWidget) : DaiCamWidget × Bool :=
  let w := oakdInnerStart devOk w
  ({ w with timer_on := true, camera_running := true }, true)

/-- `DepthAIStereoDepth.stop` (`depth_ai_stereo.py` lines 98-103):
clears `running` and closes the device. -/
def stereoStop (w : DaiCamWidget) : DaiCamWidget :=
  { w with running := false, deviceOpen := false }

/-- Inner `DepthAIStereoDepth.start` (`depth_ai_stereo.py` lines 70-96):
pipeline setup, device open and the blocking visualization loop are inside
`try: ... except Exception: ... finally: self.stop()`, so on every path —
device failure, loop exception, or quitting the loop — control reaches
`stop()`, and nothing propagates to the caller. -/
def stereoInnerStart (devOk : Bool) (w : DaiCamWidget) : DaiCamWidget :=
  let afterTry :=
    if devOk then { w with deviceOpen := true, running := true } else w
  stereoStop afterTry

/-- `StereoCameraWidget.start_stream` (`standard_camera.py` lines
216-220): calls the inner start (which cannot raise), starts the timer,
sets `camera_running = True` and returns `True` unconditionally. -/
def stereoWidgetStart (devOk : Bool) (w : DaiCamWidget) : DaiCamWidget × Bool :=
  let w := stereoInnerStart devOk w
  ({ w with timer_on := true, camera_running := true }, true)

/-! ## Concrete sample data for witnesses and counterexamples -/

/-- A 1×1 base image. -/
def imgA : Image := [[0]]

/-- A different 1×1 image, used as current output. -/
def imgB : Image := [[7]]

/-- A Transform Operator returning its input unchanged (records which
image the protocol feeds to the operator). -/
def blurId : Image → GaussParams → Image := fun i _ => i

/-- A Transform Operator incrementing every pixel (a non-identity
operator for which a default-parameter result differs from the input). -/
def blurInc : Image → GaussParams → Image :=
  fun i _ => i.map (fun row => row.map (· + 1))

/-- An Application Shell state with base image `imgA` loaded and `imgB`
as the processed current output (as after a previous commit). -/
def app0 : AppState :=
  { image := some imgA, current_output := some imgB,
    current_output_path := "sample.png", previous_output := none,
    camera_running := false, displayed := some imgB,
    parameter_windows := [], openWindows := [], nextId := 0 }

/-- `app0` right after a Gaussian panel was opened on it. -/
def app0G : AppState :=
  { app0 with parameter_windows := [("Gaussian Blur", 0)],
              openWindows := [(0, "GaussianBlurParameterWindow")],
              nextId := 1 }

/-- The Gaussian panel opened on `app0`: revert target `imgB`, controls at
their defaults. -/
def panel0 : GaussPanel :=
  { original_image := imgB, default_params := gaussDefaults,
    current_params := gaussDefaults, live_preview := true,
    kernel_raw := 5, sigma_x_raw := 10, sigma_y_raw := 10, border_idx := 0,
    isOpen := true, winId := 0 }

/-- A sample editing session. -/
def demoEvents : List GaussEvent :=
  [ .setKernel 8 true, .setSigmaX 37 false, .setBorder 2 true,
    .setLivePreview false, .setSigmaY 3 true ]

/-- An Application Shell state before any image is loaded
(`CVTeachingApp.__init__`, `main_app.py` lines 42-54). -/
def emptyApp : AppState :=
  { image := none, current_output := none, current_output_path := "",
    previous_output := none, camera_running := false, displayed := none,
    parameter_windows := [], openWindows := [], nextId := 0 }

/-! ## Helper lemmas -/

/-- A preview recompute leaves `current_output` untouched: the preview
branch of `apply_changes` routes through `temp_display_image`. -/
theorem apply_changes_preview_current_output
    (blur : Image → GaussParams → Image) (s : AppState) (p : GaussPanel) :
    ((apply_changes blur s p true).1).current_output = s.current_output := by
  cases hs : s.image <;> simp [apply_changes, temp_display_image, hs]

theorem gaussMaybePreview_current_output
    (blur : Image → GaussParams → Image) (s : AppState) (p : GaussPanel) (t : Bool) :
    ((gaussMaybePreview blur s p t).1).current_output = s.current_output := by
  unfold gaussMaybePreview
  split
  · exact apply_changes_preview_current_output blur s p
  · rfl

theorem gaussStep_current_output (blur : Image → GaussParams → Image)
    (sp : AppState × GaussPanel) (e : GaussEvent) :
    ((gaussStep blur sp e).1).current_output = sp.1.current_output := by
  cases e <;> simp [gaussStep, gaussMaybePreview_current_output]

theorem gaussRun_current_output (blur : Image → GaussParams → Image)
    (es : List GaussEvent) (sp : AppState × GaussPanel) :
    ((gaussRun blur sp es).1).current_output = sp.1.current_output := by
  induction es generalizing sp with
  | nil => rfl
  | cons e es ih =>
      rw [gaussRun, ih (gaussStep blur sp e), gaussStep_current_output]

theorem lookup_dictErase (k : String) (d : List (String × Nat)) :
    (dictErase k d).lookup k = none := by
  induction d with
  | nil => rfl
  | cons e t ih =>
      by_cases he : e.1 = k
      · simpa [dictErase, List.filter_cons, he] using ih
      · have hbe : (k == e.1) = false := by
          simp [he]
          exact fun h => he h.symm
        simp [dictErase, List.filter_cons, he, List.lookup, hbe] at *
        exact ih

theorem lookup_some_mem {d : List (String × Nat)} {k : String} {v : Nat}
    (h : d.lookup k = some v) : ∃ e ∈ d, e.1 = k := by
  induction d with
  | nil => simp [List.lookup] at h
  | cons e t ih =>
      rw [List.lookup] at h
      by_cases hk : k = e.1
      · exact ⟨e, List.mem_cons_self e t, hk.symm⟩
      · have hbe : (k == e.1) = false := by
          simp [hk]
        rw [hbe] at h
        obtain ⟨e', he', hk'⟩ := ih h
        exact ⟨e', List.mem_cons_of_mem e he', hk'⟩

/-- No window-title registry key ever equals a class-derived lookup key:
the two key families are disjoint across all panel classes. -/
theorem registeredKey_ne_derivedTitle (c c' : PanelClass) :
    registeredKeyOpt c' ≠ some (derivedTitle c) := by
  cases c <;> cases c' <;> decide

/-! ## Claim theorems -/

/-- Claim C1: opening a Gaussian parameter panel and performing any
sequence of control edits and throttled preview recomputes (no Commit)
leaves the Application Shell's `current_output` exactly as it was before
the panel opened — the preview path (`temp_display_image`) never assigns
`current_output`. -/
theorem preview_never_mutates_current_output
    (blur : Image → GaussParams → Image) (s s' : AppState) (p : GaussPanel)
    (es : List GaussEvent) (h : openGaussPanel s = some (s', p)) :
    ((gaussRun blur (s', p) es).1).current_output = s.current_output := by
  rw [gaussRun_current_output]
  cases hc : s.current_output with
  | none => simp [openGaussPanel, hc] at h
  | some co =>
      simp only [openGaussPanel, hc, Option.some.injEq, Prod.mk.injEq] at h
      obtain ⟨hs', _⟩ := h
      rw [← hs']

/-- Witness for C1 at a concrete state, operator and event list. -/
theorem preview_never_mutates_current_output_witness :
    openGaussPanel app0 = some (app0G, panel0) ∧
    ((gaussRun blurId (app0G, panel0) demoEvents).1).current_output
      = app0.current_output :=
  ⟨rfl, preview_never_mutates_current_output blurId app0 app0G panel0 demoEvents rfl⟩

/-- Claim C2 counterexample: with the identity operator, a recompute on
`app0` (base image `imgA`, revert target `imgB` ≠ `imgA`) displays `imgA` —
so the operator was fed the parent's live base image `parent.image`,
not a copy of the revert-target snapshot, refuting the claim that the
operator's input is never any other image. -/
theorem operator_input_is_base_image_cex :
    ((openGaussPanel app0).map
        (fun sp => (((apply_changes blurId sp.1 sp.2 true).1).displayed,
                    sp.2.original_image)))
      = some (some imgA, imgB) ∧ imgA ≠ imgB := by
  exact ⟨rfl, by decide⟩

/-- Claim C2 amended: on every recompute (preview or commit) the Transform
Operator is applied to the parent's live base image `self.parent.image` —
not to the revert-target snapshot — using the Parameter Set read back from
the controls, and its result is what reaches the Display Surface. -/
theorem operator_applied_to_base_image
    (blur : Image → GaussParams → Image) (s : AppState) (p : GaussPanel)
    (pv : Bool) (img : Image) (h : s.image = some img) :
    ((apply_changes blur s p pv).1).displayed
      = some (blur img (gaussParamsFromControls p)) := by
  cases pv <;> simp [apply_changes, h, temp_display_image, display_image]

/-- Witness for the amended C2 at a concrete state and operator. -/
theorem operator_applied_to_base_image_witness :
    app0.image = some imgA ∧
    ((apply_changes blurId app0 panel0 true).1).displayed
      = some (blurId imgA (gaussParamsFromControls panel0)) :=
  ⟨rfl, operator_applied_to_base_image blurId app0 panel0 true imgA rfl⟩

/-- Claim C3 counterexample: pressing Revert on the panel opened over
`app0` (revert target `imgB = [[7]]`, operator `blurInc`) leaves the
Display Surface showing `[[1]]` — the default-parameter preview of the
base image computed by the trailing `apply_changes(preview_only=True)` of
`reset_parameters` — which is not pixel-identical to the revert-target
snapshot. -/
theorem revert_display_cex :
    ((openGaussPanel app0).map
        (fun sp =>
          ((on_revert_clicked blurInc sp.1 sp.2
              ⟨false, false, false, false⟩).1).displayed))
      = some (some [[1]]) ∧ some ([[1]] : Image) ≠ some imgB := by
  exact ⟨rfl, by decide⟩

/-- Claim C3 amended: Revert displays the revert-target snapshot and
records it as `current_output`, resets the Parameter Set to the defaults
and re-synchronizes the controls, without closing the panel — but
`reset_parameters` then immediately runs a preview recompute with the
default parameters, so the Display Surface ends up showing the
default-parameter preview of the base image rather than the revert-target
snapshot. -/
theorem revert_resets_and_repreviews
    (blur : Image → GaussParams → Image) (s : AppState) (p : GaussPanel)
    (sig : ResetSignals) (img : Image)
    (h : s.image = some img) (hd : p.default_params = gaussDefaults) :
    ((on_revert_clicked blur s p sig).1).displayed
        = some (blur img gaussDefaults) ∧
    ((on_revert_clicked blur s p sig).1).current_output
        = some p.original_image ∧
    ((on_revert_clicked blur s p sig).2).current_params = gaussDefaults ∧
    ((on_revert_clicked blur s p sig).2).kernel_raw = 5 ∧
    ((on_revert_clicked blur s p sig).2).sigma_x_raw = 10 ∧
    ((on_revert_clicked blur s p sig).2).sigma_y_raw = 10 ∧
    ((on_revert_clicked blur s p sig).2).border_idx = 0 ∧
    ((on_revert_clicked blur s p sig).2).isOpen = p.isOpen := by
  obtain ⟨k, sx, sy, b⟩ := sig
  cases hco : s.current_output <;> cases hl : p.live_preview <;>
    cases k <;> cases sx <;> cases sy <;> cases b <;>
    simp [on_revert_clicked, reset_parameters, gaussRun, gaussStep,
          gaussMaybePreview, apply_changes, temp_display_image, display_image,
          h, hd, hl, hco, gaussKernelOddCoerce, qtSetValue,
          gaussParamsFromControls, gaussDefaults, borderMap]

/-- Witness for the amended C3 at a concrete state and operator. -/
theorem revert_resets_and_repreviews_witness :
    app0G.image = some imgA ∧ panel0.default_params = gaussDefaults ∧
    ((on_revert_clicked blurInc app0G panel0 ⟨true, true, true, true⟩).1).displayed
      = some (blurInc imgA gaussDefaults) :=
  ⟨rfl, rfl,
    (revert_resets_and_repreviews blurInc app0G panel0 ⟨true, true, true, true⟩
      imgA rfl rfl).1⟩

/-- Claim C4: Commit (OK) applies the operator with the parameter values
read back from the controls at the moment OK is pressed — `apply_changes`
reads the live widgets, not the possibly stale `current_params` cache, so
a change that fell inside the throttle window (and triggered no preview)
is still honoured — records the result as the application's
`current_output`, displays it, closes the panel and deregisters it. -/
theorem commit_uses_then_current_parameters
    (blur : Image → GaussParams → Image) (s : AppState) (p : GaussPanel)
    (img : Image) (h : s.image = some img) :
    ((on_ok_clicked blur s p).1).current_output
        = some (blur img (gaussParamsFromControls p)) ∧
    ((on_ok_clicked blur s p).1).displayed
        = some (blur img (gaussParamsFromControls p)) ∧
    ((on_ok_clicked blur s p).2).isOpen = false ∧
    ((on_ok_clicked blur s p).1).parameter_windows.lookup gaussTitle = none := by
  unfold on_ok_clicked closeGaussPanel
  refine ⟨?_, ?_, rfl, lookup_dictErase _ _⟩ <;>
    simp [apply_changes, h, display_image]

/-- Witness for C4 at a concrete state and operator. -/
theorem commit_uses_then_current_parameters_witness :
    app0G.image = some imgA ∧
    ((on_ok_clicked blurInc app0G panel0).1).current_output
      = some (blurInc imgA (gaussParamsFromControls panel0)) :=
  ⟨rfl, (commit_uses_then_current_parameters blurInc app0G panel0 imgA rfl).1⟩

/-- Claim C5: for the two odd-only controls — the Gaussian kernel-size
slider (range 1-31) and the adaptive-threshold block-size slider (range
3-51) — every even value yields, via `on_parameter_changed`'s coercion, an
odd normalized value that is at least the operator's minimum (1 resp. 3)
and is a nearest odd value to the raw one; in particular raw 4 on the
Gaussian kernel slider becomes 3 (one of the two admissible answers 5 or
3) before any recompute fires. -/
theorem odd_only_controls_normalize
    (r1 r2 : Nat) (h1 : qtSetValue 1 31 r1 % 2 = 0)
    (h2 : qtSetValue 3 51 r2 % 2 = 0) :
    (gaussKernelAfterSet r1 % 2 = 1 ∧ 1 ≤ gaussKernelAfterSet r1 ∧
      ∀ w, w % 2 = 1 → 1 ≤ w →
        ndist (gaussKernelAfterSet r1) (qtSetValue 1 31 r1)
          ≤ ndist w (qtSetValue 1 31 r1)) ∧
    (blockSizeAfterSet r2 % 2 = 1 ∧ 3 ≤ blockSizeAfterSet r2 ∧
      ∀ w, w % 2 = 1 → 3 ≤ w →
        ndist (blockSizeAfterSet r2) (qtSetValue 3 51 r2)
          ≤ ndist w (qtSetValue 3 51 r2)) ∧
    gaussKernelAfterSet 4 = 3 := by
  have hb1 : (qtSetValue 1 31 r1 % 2 == 0) = true := by simpa using h1
  have hb2 : (qtSetValue 3 51 r2 % 2 == 0) = true := by simpa using h2
  refine ⟨⟨?_, ?_, ?_⟩, ⟨?_, ?_, ?_⟩, by decide⟩
  all_goals
    simp only [gaussKernelAfterSet, gaussKernelOddCoerce, blockSizeAfterSet,
      blockSizeOddCoerce, hb1, hb2, if_true]
  all_goals try intro w hw hwmin
  all_goals simp only [ndist, qtSetValue] at h1 h2 ⊢
  all_goals first
  | (split_ifs <;> omega)
  | omega

/-- Witness for C5 at the raw value 4 on both controls. -/
theorem odd_only_controls_normalize_witness :
    qtSetValue 1 31 4 % 2 = 0 ∧ qtSetValue 3 51 4 % 2 = 0 ∧
    gaussKernelAfterSet 4 = 3 :=
  ⟨by decide, by decide,
    (odd_only_controls_normalize 4 4 (by decide) (by decide)).2.2⟩

/-- Claim C6 (registry invariant): refuted by the code — the registry is
written under `windowTitle()` keys (`"Gaussian Blur"`) but probed under
class-derived keys (`"GaussianBlur"`), which never coincide
(`registeredKey_ne_derivedTitle`), so a second request for an
already-open panel creates a second window instead of raising the first:
after two `show_parameter_window` requests for the Gaussian panel on
`app0`, two windows of that class are open at once. -/
theorem panel_registry_duplicate_windows :
    (show_parameter_window app0 .gaussianBlur).2 = ShowResult.opened ∧
    (show_parameter_window (show_parameter_window app0 .gaussianBlur).1
        .gaussianBlur).2 = ShowResult.opened ∧
    ((show_parameter_window (show_parameter_window app0 .gaussianBlur).1
        .gaussianBlur).1).openWindows
      = [(1, "GaussianBlurParameterWindow"), (0, "GaussianBlurParameterWindow")] ∧
    derivedTitle .gaussianBlur ≠ gaussTitle := by
  exact ⟨rfl, rfl, rfl, by decide⟩

/-- Claim C7: requesting any parameter panel while no image is loaded and
no camera is running yields the warning branch and leaves the Application
Shell state untouched — no window is constructed or registered (the model
is a total function, so no exception is raised either). The registry
hypothesis states the reachable-state invariant that every registry entry
was written by `register_parameter_window` under some window title. -/
theorem open_without_image_warns
    (s : AppState) (c : PanelClass) (himg : s.image = none)
    (hcam : s.camera_running = false)
    (hkeys : ∀ e ∈ s.parameter_windows, ∃ c', registeredKeyOpt c' = some e.1) :
    show_parameter_window s c = (s, ShowResult.warned) := by
  have hmiss : s.parameter_windows.lookup (derivedTitle c) = none := by
    cases hlk : s.parameter_windows.lookup (derivedTitle c) with
    | none => rfl
    | some v =>
        obtain ⟨e, he, hek⟩ := lookup_some_mem hlk
        obtain ⟨c', hc'⟩ := hkeys e he
        rw [hek] at hc'
        exact absurd hc' (registeredKey_ne_derivedTitle c c')
  simp [show_parameter_window, hmiss, himg, hcam]

/-- Witness for C7 on the fresh application state. -/
theorem open_without_image_warns_witness :
    emptyApp.image = none ∧ emptyApp.camera_running = false ∧
    show_parameter_window emptyApp .gaussianBlur = (emptyApp, ShowResult.warned) :=
  ⟨rfl, rfl, open_without_image_warns emptyApp .gaussianBlur rfl rfl (by simp [emptyApp])⟩

/-- Claim C8 counterexample: two `start_stream` calls with the device
available, no `stop_stream` in between — the second call is not rejected
(it returns `True`) and, since `start_stream` performs no `release()` on
the capture it overwrites, both opened device handles remain open (handle
0 and handle 1): neither disjunct of the claim's second half holds. -/
theorem double_start_two_handles_cex :
    (start_stream true (start_stream true initStdCam).1).2 = true ∧
    ((start_stream true (start_stream true initStdCam).1).1).opened = [1, 0] := by
  exact ⟨rfl, rfl⟩

/-- Claim C8 amended: `stop_stream` before any `start_stream` is a no-op
raising no exception; but a second `start_stream` without an intervening
`stop_stream` is not rejected — it opens a second device handle and merely
overwrites the widget's reference to the first without any `release()`
call, so both opened handles are unreleased by the widget (reclaiming the
first is left to interpreter finalization; the spec's own data-model
section notes the original "leaks resources" on double start). -/
theorem stop_idempotent_double_start_leaks :
    stop_stream initStdCam = initStdCam ∧
    (start_stream true (start_stream true initStdCam).1).2 = true ∧
    ((start_stream true (start_stream true initStdCam).1).1).opened = [1, 0] ∧
    ((start_stream true (start_stream true initStdCam).1).1).capture = some 1 := by
  exact ⟨rfl, rfl, rfl, rfl⟩

/-- Claim C9: refuted by the code at a missing file — `cv2.imread`
returns `None` instead of raising, `open_image` stores it into
`self.image` and then crashes with an uncaught `AttributeError` at
`self.image.copy()` (flag `true`): no `DecodeError`, no modal notice, and
the application state has already been mutated (the previously loaded
base image is clobbered with `None`). -/
theorem load_missing_file_crashes :
    open_image (fun _ => none) app0 (some "missing.png")
      = ({ app0 with image := none }, true) ∧
    ({ app0 with image := none } : AppState).image ≠ app0.image := by
  exact ⟨rfl, by decide⟩

/-- Claim C10: `OakDLiteCameraWidget.start_stream` and
`StereoCameraWidget.start_stream` return `True` on every call and every
device condition (the inner starts swallow all exceptions), so
`show_camera_window`'s `if not self.current_camera.start_stream()`
failure branch ("Could not start camera") is unreachable for these two
frame sources. -/
theorem dai_start_stream_always_true (devOk : Bool) (w w' : DaiCamWidget) :
    (oakdWidgetStart devOk w).2 = true ∧ (stereoWidgetStart devOk w').2 = true :=
  ⟨rfl, rfl⟩

end VisionClassroom
